import Mathlib

/-!
Verification of the high-protein food-delivery agent
(`services/api/food_delivery_helpers.py`, `services/api/mcp_executor.py`,
`services/api/mcp_runtime.py`, `shared/schemas/*.py`).

Shallow embedding conventions:
* Python `float` prices and scores are modelled as `ℚ` (the code only adds,
  divides and compares; no float-rounding behaviour is relied on by the
  properties proved here).
* Python `None`-able values are `Option`.
* Python dicts that are iterated in insertion order are association lists.
* Code that can raise is modelled with `Except`.
-/

/- ============================================================ -/
/- Price parsing (`food_delivery_helpers.parse_price`)          -/
/- ============================================================ -/

/-- Digits of a decimal string to a natural number (`int("...")` on digits). -/
def digitsToNat (cs : List Char) : ℕ :=
  cs.foldl (fun n c => n * 10 + (c.toNat - 48)) 0

/-- Split a character list on `'.'` (used to model `float()` parsing). -/
def splitDots : List Char → List (List Char)
  | [] => [[]]
  | c :: cs =>
    if c = '.' then [] :: splitDots cs
    else
      match splitDots cs with
      | [] => [[c]]
      | p :: ps => (c :: p) :: ps

/-- Model of Python `float(s)` restricted to the strings `parse_price` can
produce: digits and dots only; at most one dot; at least one digit.
Any other input raises `ValueError` in Python, modelled as `none`. -/
def pyFloat (s : String) : Option ℚ :=
  let cs := s.data
  if cs.isEmpty then none
  else if !cs.all (fun c => c.isDigit || c == '.') then none
  else
    match splitDots cs with
    | [ds] => some ((digitsToNat ds : ℚ))
    | [ipart, fpart] =>
      if ipart.isEmpty && fpart.isEmpty then none
      else some ((digitsToNat ipart : ℚ) + (digitsToNat fpart : ℚ) / ((10 : ℚ) ^ fpart.length))
    | _ => none

/-- `re.sub(r'[^\d.,]', '', price_text.strip())`: keep only digits, `.` and
`,` (the `strip()` is subsumed because whitespace is dropped anyway). -/
def clean_price_text (s : String) : String :=
  ⟨s.data.filter (fun c => c.isDigit || c == '.' || c == ',')⟩

/-- `food_delivery_helpers.parse_price`: empty input is rejected up front;
a comma with no dot is a decimal comma (`replace(',', '.')`); a comma
together with a dot is a thousands separator (`replace(',', '')`);
then `float()` is attempted. -/
def parse_price (price_text : String) : Option ℚ :=
  if price_text = "" then none
  else
    let cleaned := clean_price_text price_text
    let cleaned :=
      if cleaned.data.contains ',' && !cleaned.data.contains '.' then
        (⟨cleaned.data.map (fun c => if c = ',' then '.' else c)⟩ : String)
      else if cleaned.data.contains ',' && cleaned.data.contains '.' then
        (⟨cleaned.data.filter (fun c => c ≠ ',')⟩ : String)
      else cleaned
    pyFloat cleaned

/- ============================================================ -/
/- Protein estimation (`estimate_protein_from_name`)            -/
/- ============================================================ -/

/-- `List.isPrefixOf`-style Boolean prefix test on characters. -/
def charsHavePrefix : List Char → List Char → Bool
  | [], _ => true
  | _ :: _, [] => false
  | a :: as, b :: bs => a == b && charsHavePrefix as bs

/-- Boolean substring test on characters. -/
def charsContain (needle : List Char) : List Char → Bool
  | [] => charsHavePrefix needle []
  | c :: t => charsHavePrefix needle (c :: t) || charsContain needle t

/-- `str_contains hay needle`: `needle` occurs in `hay`. -/
def str_contains (hay needle : String) : Bool :=
  charsContain needle.data hay.data

/-- An unanchored `re.search` of the alternation of literal phrases.  Each
regex in the source tables is an alternation of phrases whose only
metacharacters are `\s+` between words, the optional `s?` of `eggs?` and
`(?:...)` grouping; on the lower-cased single-spaced texts considered here it
matches exactly when one of the listed phrases is a substring. -/
def pattern_matches (text : String) (alts : List String) : Bool :=
  alts.any (fun a => str_contains text a)

/-- `PROTEIN_KEYWORDS`: (alternative phrases, estimated grams, confidence).
`eggs?|egg\s+white` collapses to the single substring `egg`. -/
def PROTEIN_KEYWORDS : List (List String × ℕ × String) :=
  [ (["grilled chicken", "chicken breast"], 35, "medium"),
    (["double chicken"], 50, "medium"),
    (["steak", "ribeye", "sirloin", "filet"], 30, "medium"),
    (["salmon", "tuna"], 25, "medium"),
    (["ground beef", "beef patty"], 25, "medium"),
    (["chicken"], 25, "low"),
    (["beef", "burger"], 22, "low"),
    (["fish", "tilapia", "cod", "halibut"], 22, "low"),
    (["shrimp", "prawns"], 20, "low"),
    (["pork", "carnitas"], 22, "low"),
    (["lamb"], 25, "low"),
    (["turkey"], 25, "low"),
    (["tofu"], 15, "medium"),
    (["tempeh"], 18, "medium"),
    (["egg"], 6, "medium"),
    (["black beans", "kidney beans"], 8, "low"),
    (["lentils"], 9, "low"),
    (["chickpeas", "hummus"], 7, "low"),
    (["quinoa"], 8, "low"),
    (["edamame"], 11, "medium"),
    (["greek yogurt"], 15, "medium"),
    (["cottage cheese"], 12, "medium"),
    (["protein bowl"], 30, "low"),
    (["power bowl"], 28, "low"),
    (["fitness bowl"], 28, "low") ]

/-- `PROTEIN_MODIFIERS`: (alternative phrases, additive bonus). -/
def PROTEIN_MODIFIERS : List (List String × ℕ) :=
  [ (["double", "2x"], 15),
    (["triple", "3x"], 30),
    (["extra chicken", "extra protein", "extra meat"], 12),
    (["large", "grande"], 5),
    (["add chicken", "add protein"], 12),
    (["with chicken", "with steak", "with beef",
      "with extra chicken", "with extra steak", "with extra beef"], 15) ]

/-- `MAX_SINGLE_ITEM_PROTEIN` sanity cap. -/
def MAX_SINGLE_ITEM_PROTEIN : ℕ := 60

/-- ASCII lower-casing, the effect of Python `str.lower()` on these texts. -/
def toLowerAscii (s : String) : String :=
  ⟨s.data.map Char.toLower⟩

/-- The `matched_keywords` list collected by the keyword loop. -/
def matched_keywords (text : String) : List (List String × ℕ × String) :=
  PROTEIN_KEYWORDS.filter (fun p => pattern_matches text p.1)

/-- The `base_protein` accumulator: highest grams among matched keywords. -/
def base_protein_of (text : String) : ℕ :=
  (matched_keywords text).foldl (fun acc p => if acc < p.2.1 then p.2.1 else acc) 0

/-- The `modifier_bonus` accumulator: sum of all matching modifier bonuses. -/
def modifier_bonus_of (text : String) : ℕ :=
  PROTEIN_MODIFIERS.foldl (fun acc p => if pattern_matches text p.1 then acc + p.2 else acc) 0

/-- `estimate_protein_from_name`.  The confidence `elif` at lines 126-127 of
the source evaluates `re.search(_, text, ...)` where `_` is the *grams
integer* left over from tuple unpacking, so whenever it is reached (exactly
one keyword matched and no modifier matched) Python raises `TypeError`; that
path is modelled as `Except.error`.  The final `else: confidence = "low"`
of the source is unreachable. -/
def estimate_protein_from_name (item_name : String) (description : Option String) :
    Except String (Option ℕ × String) :=
  let text := toLowerAscii (item_name ++ " " ++ description.getD "")
  let base := base_protein_of text
  if base = 0 then .ok (none, "none")
  else
    let bonus := modifier_bonus_of text
    let total := min (base + bonus) MAX_SINGLE_ITEM_PROTEIN
    if 1 < (matched_keywords text).length ∨ 0 < bonus then .ok (some total, "low")
    else .error "TypeError: first argument must be string or compiled pattern"

/-- Grams carried by a successfully returned estimate (0 otherwise). -/
def ok_grams : Except String (Option ℕ × String) → ℕ
  | .ok (some g, _) => g
  | _ => 0

/- ============================================================ -/
/- Theorems: C6 and C7                                          -/
/- ============================================================ -/

/-- C6: `parse_price` satisfies the four reference cases: a dot beside a
comma makes the comma a thousands separator; a lone comma is a decimal
comma; empty and non-numeric inputs give `None`. -/
theorem parse_price_reference_cases :
    parse_price "$1,234.56" = some (123456 / 100) ∧
    parse_price "12,99" = some (1299 / 100) ∧
    parse_price "" = none ∧
    parse_price "Free" = none := by
  have h1 : parse_price "$1,234.56" = some ((1234 : ℚ) + 56 / (10 : ℚ) ^ 2) := rfl
  have h2 : parse_price "12,99" = some ((12 : ℚ) + 99 / (10 : ℚ) ^ 2) := rfl
  refine ⟨?_, ?_, rfl, rfl⟩
  · rw [h1]; norm_num
  · rw [h2]; norm_num

/-- C7: the claim is right and the code is wrong.  Every estimate the code
manages to return is at most 60 g (the `min` against
`MAX_SINGLE_ITEM_PROTEIN`), and `"Double Chicken Bowl"` yields the capped
60 g; but `estimate_protein_from_name("Chicken Bowl")` — the claim's own
comparison point — never returns: exactly one keyword (`chicken`) matches
with no modifier, which sends the code into the mangled confidence
generator and raises `TypeError`. -/
theorem estimate_protein_cap_and_chicken_bowl_bug :
    estimate_protein_from_name "Chicken Bowl" none =
      .error "TypeError: first argument must be string or compiled pattern" ∧
    estimate_protein_from_name "Double Chicken Bowl" none = .ok (some 60, "low") ∧
    ∀ name desc, ok_grams (estimate_protein_from_name name desc) ≤ 60 := by
  refine ⟨rfl, rfl, ?_⟩
  intro name desc
  unfold estimate_protein_from_name
  dsimp only
  split
  · simp [ok_grams]
  · split
    · simp only [ok_grams, MAX_SINGLE_ITEM_PROTEIN]
      exact Nat.min_le_right _ 60
    · simp [ok_grams]

/- ============================================================ -/
/- Data model (`shared/schemas/food_delivery.py`)               -/
/- ============================================================ -/

/-- `CartItem`: a menu item included in a cart. -/
structure CartItem where
  item_name : String
  price : ℚ
  protein_grams : ℕ
  protein_source : Option String
  calories : Option ℕ
  url : String
deriving DecidableEq, Repr

/-- `CartCandidate`: a potential cart combination for ranking
(`score` defaults to `0.0`, `reason` to `None`). -/
structure CartCandidate where
  restaurant : String
  restaurant_url : String
  cart_items : List CartItem
  total_price : ℚ
  total_protein_grams : ℕ
  includes_estimates : Bool
  eta_minutes : Option ℕ
  score : ℚ
  reason : Option String
deriving DecidableEq, Repr

/-- `CartCandidate.item_count` property. -/
def CartCandidate.item_count (c : CartCandidate) : ℕ :=
  c.cart_items.length

/-- `CartCandidate.protein_per_dollar` property. -/
def CartCandidate.protein_per_dollar (c : CartCandidate) : ℚ :=
  if 0 < c.total_price then (c.total_protein_grams : ℚ) / c.total_price else 0

/-- `CartCandidate.actual_protein_ratio` property: share of the protein that
comes from `"actual"` (non-estimated) sources, `0.0` when total protein is 0. -/
def CartCandidate.actual_protein_share (c : CartCandidate) : ℚ :=
  if 0 < c.total_protein_grams then
    (((c.cart_items.filter (fun it => it.protein_source == some "actual")).map
        (fun it => it.protein_grams)).sum : ℚ) / (c.total_protein_grams : ℚ)
  else 0

/-- `ExtractedMenuItem`. -/
structure ExtractedMenuItem where
  item_name : String
  price : ℚ
  protein_grams : Option ℕ
  protein_source : Option String
  protein_eligible : Bool
  calories : Option ℕ
  description : Option String
  url : String
deriving DecidableEq, Repr

/-- `ExtractedMenuItem.protein_per_dollar` property.  Python tests
`if self.protein_grams and self.price > 0`, so `None` *and* `0` protein both
give `0.0`. -/
def ExtractedMenuItem.protein_per_dollar (it : ExtractedMenuItem) : ℚ :=
  if it.protein_grams.getD 0 ≠ 0 ∧ 0 < it.price then
    (it.protein_grams.getD 0 : ℚ) / it.price
  else 0

/-- `ExtractedRestaurant` (extraction bookkeeping fields omitted: cart
assembly reads only these). -/
structure ExtractedRestaurant where
  name : String
  url : String
  eta_minutes : Option ℕ
  items : List ExtractedMenuItem
deriving DecidableEq, Repr

/-- `ExtractedRestaurant.eligible_items` property. -/
def ExtractedRestaurant.eligible_items (r : ExtractedRestaurant) : List ExtractedMenuItem :=
  r.items.filter (fun it => it.protein_eligible)

/-- `RankedCartResult`. -/
structure RankedCartResult where
  rank : ℕ
  restaurant : String
  restaurant_url : String
  cart_items : List CartItem
  total_price : ℚ
  total_protein_grams : ℕ
  includes_estimates : Bool
  eta_minutes : Option ℕ
  score : ℚ
  reason : String
deriving DecidableEq, Repr

/- ============================================================ -/
/- Cart assembly (`find_valid_carts` and helpers)               -/
/- ============================================================ -/

/-- Stable insertion used by `sortStable`: `before y x` means `y` must stay
strictly ahead of `x`; ties keep the original order, as Python's stable
`sorted` does. -/
def insertStable (before : α → α → Bool) (x : α) : List α → List α
  | [] => [x]
  | y :: ys => if before y x then y :: insertStable before x ys else x :: y :: ys

/-- Stable sort: model of Python `sorted(l, key=..., reverse=True)` where
`before a b` holds when `a`'s key strictly precedes `b`'s in the output. -/
def sortStable (before : α → α → Bool) : List α → List α
  | [] => []
  | x :: xs => insertStable before x (sortStable before xs)

/-- `itertools.combinations(l, n)`: all n-element sublists preserving order. -/
def combos : ℕ → List α → List (List α)
  | 0, _ => [[]]
  | _ + 1, [] => []
  | n + 1, x :: xs => (combos n xs).map (x :: ·) ++ combos (n + 1) xs

/-- `_create_cart_candidate`: totals recomputed from the cart items;
`protein_grams or 0` coalesces missing protein to 0. -/
def create_cart_candidate (r : ExtractedRestaurant) (items : List ExtractedMenuItem) :
    CartCandidate :=
  let cart_items : List CartItem := items.map (fun it =>
    { item_name := it.item_name, price := it.price,
      protein_grams := it.protein_grams.getD 0,
      protein_source := it.protein_source, calories := it.calories, url := it.url })
  { restaurant := r.name, restaurant_url := r.url, cart_items := cart_items,
    total_price := (cart_items.map (fun it => it.price)).sum,
    total_protein_grams := (cart_items.map (fun it => it.protein_grams)).sum,
    includes_estimates := cart_items.any (fun it => it.protein_source == some "estimated"),
    eta_minutes := r.eta_minutes, score := 0, reason := none }

/-- `_try_combination`: keep the combination iff summed protein reaches the
minimum and summed price is strictly under the ceiling. -/
def try_combination (r : ExtractedRestaurant) (items : List ExtractedMenuItem)
    (min_protein : ℕ) (max_price : ℚ) : Option CartCandidate :=
  if min_protein ≤ (items.map (fun it => it.protein_grams.getD 0)).sum ∧
      (items.map (fun it => it.price)).sum < max_price then
    some (create_cart_candidate r items)
  else none

/-- The loop body of `_greedy_cart_assembly`: walk the sorted items carrying
the accumulated cart, protein and price; stop with `None` when the item cap
is hit (`break` + fall-through `return None`); add an item only when it
still fits the budget; return the cart as soon as the protein target is met. -/
def greedy_cart_assembly_go (r : ExtractedRestaurant) (min_protein : ℕ) (max_price : ℚ)
    (max_items : ℕ) :
    List ExtractedMenuItem → List ExtractedMenuItem → ℕ → ℚ → Option CartCandidate
  | [], _, _, _ => none
  | it :: rest, acc, protein, price =>
    if max_items ≤ acc.length then none
    else if price + it.price < max_price then
      if min_protein ≤ protein + it.protein_grams.getD 0 then
        some (create_cart_candidate r (acc ++ [it]))
      else
        greedy_cart_assembly_go r min_protein max_price max_items rest (acc ++ [it])
          (protein + it.protein_grams.getD 0) (price + it.price)
    else greedy_cart_assembly_go r min_protein max_price max_items rest acc protein price

/-- `_greedy_cart_assembly`. -/
def greedy_cart_assembly (r : ExtractedRestaurant) (sorted_items : List ExtractedMenuItem)
    (min_protein : ℕ) (max_price : ℚ) (max_items : ℕ) : Option CartCandidate :=
  greedy_cart_assembly_go r min_protein max_price max_items sorted_items [] 0 0

/-- The `sorted_items` local of `find_valid_carts`: eligible items by
protein-per-dollar descending (stable). -/
def fvc_sorted_items (r : ExtractedRestaurant) : List ExtractedMenuItem :=
  sortStable (fun a b => decide (b.protein_per_dollar < a.protein_per_dollar))
    r.eligible_items

/-- The single-item pass of `find_valid_carts`. -/
def fvc_singles (r : ExtractedRestaurant) (sorted_items : List ExtractedMenuItem)
    (min_protein : ℕ) (max_price : ℚ) : List CartCandidate :=
  sorted_items.filterMap (fun it =>
    if min_protein ≤ it.protein_grams.getD 0 ∧ it.price < max_price then
      some (create_cart_candidate r [it])
    else none)

/-- `valid_carts` after the single-, 2- and 3-item pass of
`find_valid_carts`, in the order they are appended. -/
def fvc_base (r : ExtractedRestaurant) (sorted_items : List ExtractedMenuItem)
    (min_protein : ℕ) (max_price : ℚ) : List CartCandidate :=
  fvc_singles r sorted_items min_protein max_price ++
    (combos 2 sorted_items).filterMap (fun c => try_combination r c min_protein max_price) ++
    (combos 3 sorted_items).filterMap (fun c => try_combination r c min_protein max_price)

/-- `find_valid_carts`: no eligible items gives `[]`; otherwise the
combination passes plus the greedy cart, appended only when valid and not
already present (`greedy_cart not in valid_carts`, pydantic field equality). -/
def find_valid_carts (r : ExtractedRestaurant) (min_protein : ℕ) (max_price : ℚ)
    (max_items_per_cart : ℕ) : List CartCandidate :=
  if r.eligible_items.isEmpty then []
  else
    match greedy_cart_assembly r (fvc_sorted_items r) min_protein max_price
        max_items_per_cart with
    | some g =>
      if g ∈ fvc_base r (fvc_sorted_items r) min_protein max_price then
        fvc_base r (fvc_sorted_items r) min_protein max_price
      else fvc_base r (fvc_sorted_items r) min_protein max_price ++ [g]
    | none => fvc_base r (fvc_sorted_items r) min_protein max_price

/- ============================================================ -/
/- C1: soundness of `find_valid_carts`                          -/
/- ============================================================ -/

theorem create_cart_candidate_total_price (r : ExtractedRestaurant)
    (items : List ExtractedMenuItem) :
    (create_cart_candidate r items).total_price = (items.map (fun it => it.price)).sum := by
  simp only [create_cart_candidate, List.map_map]
  rfl

theorem create_cart_candidate_total_protein (r : ExtractedRestaurant)
    (items : List ExtractedMenuItem) :
    (create_cart_candidate r items).total_protein_grams =
      (items.map (fun it => it.protein_grams.getD 0)).sum := by
  simp only [create_cart_candidate, List.map_map]
  rfl

theorem create_cart_candidate_length (r : ExtractedRestaurant)
    (items : List ExtractedMenuItem) :
    (create_cart_candidate r items).cart_items.length = items.length := by
  simp [create_cart_candidate]

theorem length_of_mem_combos :
    ∀ (l : List α) (n : ℕ) (c : List α), c ∈ combos n l → c.length = n := by
  intro l
  induction l with
  | nil =>
    intro n c hc
    cases n with
    | zero => simp [combos] at hc; simp [hc]
    | succ n => simp [combos] at hc
  | cons x xs ih =>
    intro n c hc
    cases n with
    | zero => simp [combos] at hc; simp [hc]
    | succ n =>
      simp only [combos, List.mem_append, List.mem_map] at hc
      rcases hc with ⟨c', hc', rfl⟩ | h
      · simp [ih n c' hc']
      · exact ih (n + 1) c h

theorem try_combination_sound {r : ExtractedRestaurant} {items : List ExtractedMenuItem}
    {p : ℕ} {m : ℚ} {cart : CartCandidate}
    (h : try_combination r items p m = some cart) :
    p ≤ cart.total_protein_grams ∧ cart.total_price < m ∧
      cart.cart_items.length = items.length := by
  unfold try_combination at h
  split at h
  next hc =>
    cases h
    exact ⟨by rw [create_cart_candidate_total_protein]; exact hc.1,
      by rw [create_cart_candidate_total_price]; exact hc.2,
      create_cart_candidate_length r items⟩
  next => exact absurd h (by simp)

theorem greedy_go_sound (r : ExtractedRestaurant) (p : ℕ) (m : ℚ) (maxI : ℕ) :
    ∀ (items acc : List ExtractedMenuItem) (protein : ℕ) (price : ℚ)
      (cart : CartCandidate),
      protein = (acc.map (fun it => it.protein_grams.getD 0)).sum →
      price = (acc.map (fun it => it.price)).sum →
      greedy_cart_assembly_go r p m maxI items acc protein price = some cart →
      p ≤ cart.total_protein_grams ∧ cart.total_price < m ∧
        1 ≤ cart.cart_items.length ∧ cart.cart_items.length ≤ maxI := by
  intro items
  induction items with
  | nil =>
    intro acc protein price cart _ _ h
    simp [greedy_cart_assembly_go] at h
  | cons it rest ih =>
    intro acc protein price cart hprot hprice h
    rw [greedy_cart_assembly_go] at h
    split at h
    next => exact absurd h (by simp)
    next hlen =>
      split at h
      next hfits =>
        split at h
        next hmet =>
          cases h
          refine ⟨?_, ?_, ?_, ?_⟩
          · rw [create_cart_candidate_total_protein]
            simpa [hprot] using hmet
          · rw [create_cart_candidate_total_price]
            simpa [hprice] using hfits
          · rw [create_cart_candidate_length]; simp
          · rw [create_cart_candidate_length]; simp; omega
        next =>
          exact ih (acc ++ [it]) _ _ cart (by simp [hprot]) (by simp [hprice]) h
      next => exact ih acc protein price cart hprot hprice h

theorem fvc_base_sound {r : ExtractedRestaurant} {sorted_items : List ExtractedMenuItem}
    {p : ℕ} {m : ℚ} {cart : CartCandidate}
    (h : cart ∈ fvc_base r sorted_items p m) :
    p ≤ cart.total_protein_grams ∧ cart.total_price < m ∧
      1 ≤ cart.cart_items.length ∧ cart.cart_items.length ≤ 3 := by
  unfold fvc_base at h
  rcases List.mem_append.1 h with h | h'
  rcases List.mem_append.1 h with h | h
  · unfold fvc_singles at h
    rcases List.mem_filterMap.1 h with ⟨it, _, hit⟩
    split at hit
    next hc =>
      cases hit
      refine ⟨?_, ?_, ?_, ?_⟩
      · rw [create_cart_candidate_total_protein]; simpa using hc.1
      · rw [create_cart_candidate_total_price]; simpa using hc.2
      · rw [create_cart_candidate_length]; simp
      · rw [create_cart_candidate_length]; simp
    next => exact absurd hit (by simp)
  · rcases List.mem_filterMap.1 h with ⟨c, hc, hcart⟩
    have hlen := length_of_mem_combos sorted_items 2 c hc
    have := try_combination_sound hcart
    exact ⟨this.1, this.2.1, by omega, by omega⟩
  · rcases List.mem_filterMap.1 h' with ⟨c, hc, hcart⟩
    have hlen := length_of_mem_combos sorted_items 3 c hc
    have := try_combination_sound hcart
    exact ⟨this.1, this.2.1, by omega, by omega⟩

/-- C1: every cart returned by `find_valid_carts` (single-, 2-, 3-item
combinations and the extra greedy cart, at the default 5-item cap) meets the
protein minimum, stays strictly under the price ceiling, and holds between
1 and 5 items. -/
theorem find_valid_carts_bounds :
    ∀ (r : ExtractedRestaurant) (p : ℕ) (m : ℚ) (cart : CartCandidate),
      cart ∈ find_valid_carts r p m 5 →
      p ≤ cart.total_protein_grams ∧ cart.total_price < m ∧
        1 ≤ cart.cart_items.length ∧ cart.cart_items.length ≤ 5 := by
  intro r p m cart hmem
  unfold find_valid_carts at hmem
  split at hmem
  · simp at hmem
  · have base_case :
        cart ∈ fvc_base r (fvc_sorted_items r) p m →
        p ≤ cart.total_protein_grams ∧ cart.total_price < m ∧
          1 ≤ cart.cart_items.length ∧ cart.cart_items.length ≤ 5 := by
      intro hb
      have := fvc_base_sound hb
      exact ⟨this.1, this.2.1, this.2.2.1, by omega⟩
    split at hmem
    next g hg =>
      split at hmem
      · exact base_case hmem
      · rcases List.mem_append.1 hmem with hb | hgc
        · exact base_case hb
        · have : cart = g := by simpa using hgc
          subst this
          exact greedy_go_sound r p m 5 (fvc_sorted_items r) [] 0 0 cart rfl rfl hg
    next => exact base_case hmem

/-- Concrete item for the C1 witness (Scenario A of the spec). -/
def c1_item : ExtractedMenuItem :=
  { item_name := "High Protein Bowl", price := 20, protein_grams := some 110,
    protein_source := some "actual", protein_eligible := true, calories := none,
    description := none, url := "https://example.com/item" }

/-- Concrete restaurant for the C1 witness. -/
def c1_restaurant : ExtractedRestaurant :=
  { name := "Test Restaurant", url := "https://example.com/restaurant",
    eta_minutes := some 30, items := [c1_item] }

/-- The single cart `find_valid_carts` produces for the C1 witness. -/
def c1_cart : CartCandidate := create_cart_candidate c1_restaurant [c1_item]

theorem c1_find_valid_carts_eval : find_valid_carts c1_restaurant 100 30 5 = [c1_cart] := by
  unfold find_valid_carts greedy_cart_assembly
  norm_num [fvc_sorted_items, fvc_base, fvc_singles, sortStable, insertStable, combos,
    greedy_cart_assembly_go, ExtractedRestaurant.eligible_items, c1_restaurant, c1_item,
    c1_cart, try_combination, List.filterMap_cons, List.filterMap_nil, Option.getD]

/-- Witness for C1 at Scenario A. -/
theorem find_valid_carts_bounds_witness :
    100 ≤ c1_cart.total_protein_grams ∧ c1_cart.total_price < 30 ∧
      1 ≤ c1_cart.cart_items.length ∧ c1_cart.cart_items.length ≤ 5 :=
  find_valid_carts_bounds c1_restaurant 100 30 c1_cart
    (by rw [c1_find_valid_carts_eval]; exact List.mem_singleton.2 rfl)

/- ============================================================ -/
/- Scoring and ranking (`score_cart`, `rank_carts`)             -/
/- ============================================================ -/

/-- Lexicographic strict `<` on equal-length rational key lists
(Python tuple comparison). -/
def lexLtQ : List ℚ → List ℚ → Bool
  | [], [] => false
  | [], _ :: _ => true
  | _ :: _, [] => false
  | a :: as, b :: bs => if a < b then true else if b < a then false else lexLtQ as bs

/-- Python `round(x, 2)`.  (Python rounds exact float midpoints half-to-even;
no property proved here depends on midpoint direction, so round-half-up on
hundredths is used.) -/
def round2 (q : ℚ) : ℚ := (round (q * 100) : ℤ) / 100

/-- `score_cart`: 40% protein achievement, 30% price headroom, 20% capped
protein-per-dollar value, 10% delivery speed; 15% multiplicative penalty for
estimated protein; 2 points per item beyond 2.  `eta_minutes` of `None` *or*
`0` is falsy in Python and yields the default 5-point speed score. -/
def score_cart (cart : CartCandidate) (min_protein : ℕ) (max_price : ℚ) : ℚ :=
  let protein_achievement := ((cart.total_protein_grams : ℚ) / (min_protein : ℚ)) * 40
  let price_efficiency := (1 - cart.total_price / max_price) * 30
  let value_score := min (cart.protein_per_dollar / 5) 1 * 20
  let speed_score :=
    match cart.eta_minutes with
    | some eta => if 0 < eta then min ((1 / (eta : ℚ)) * 100 * 10) 10 else 5
    | none => 5
  let base := protein_achievement + price_efficiency + value_score + speed_score
  let base := if cart.includes_estimates then base * (85 / 100) else base
  let base := if 2 < cart.item_count then base - ((cart.item_count : ℚ) - 2) * 2 else base
  round2 base

/-- Sort key of `rank_carts`; negated entries model the `-x` components of
the Python key tuple under `reverse=True`.  `cart.eta_minutes or 999` maps
`None` and `0` to `999`. -/
def rank_key (c : CartCandidate) : List ℚ :=
  [ c.score,
    c.actual_protein_share,
    (c.total_protein_grams : ℚ),
    -c.total_price,
    -(((match c.eta_minutes with | some e => if e = 0 then 999 else e | none => 999) : ℕ) : ℚ),
    -(c.item_count : ℚ) ]

/-- The `seen_restaurants` dedup loop: keep only the first (best-sorted)
cart of each restaurant. -/
def dedup_by_restaurant : List CartCandidate → List String → List CartCandidate
  | [], _ => []
  | c :: cs, seen =>
    if c.restaurant ∈ seen then dedup_by_restaurant cs seen
    else c :: dedup_by_restaurant cs (c.restaurant :: seen)

/-- Python `f"{q:.2f}"` on these nonnegative in-range prices. -/
def fmt2 (q : ℚ) : String :=
  let n : ℤ := round (q * 100)
  let sign := if n < 0 then "-" else ""
  let m := n.natAbs
  sign ++ toString (m / 100) ++ "." ++
    (if m % 100 < 10 then "0" ++ toString (m % 100) else toString (m % 100))

/-- Python `f"{q:.1f}"`. -/
def fmt1 (q : ℚ) : String :=
  let n : ℤ := round (q * 10)
  let sign := if n < 0 then "-" else ""
  let m := n.natAbs
  sign ++ toString (m / 10) ++ "." ++ toString (m % 10)

/-- `_generate_cart_reason`: deterministic templated justification; the
prefix depends on the 1-based rank.  An ETA of `None` or `0` is falsy and
skips the fast-delivery clause. -/
def generate_cart_reason (cart : CartCandidate) (rank : ℕ) (min_protein : ℕ)
    (max_price : ℚ) : String :=
  let protein_surplus : ℤ := (cart.total_protein_grams : ℤ) - (min_protein : ℤ)
  let r1 :=
    if 20 < protein_surplus then
      toString cart.total_protein_grams ++ "g protein (+" ++ toString protein_surplus ++
        "g over target)"
    else toString cart.total_protein_grams ++ "g protein"
  let price_savings := max_price - cart.total_price
  let r2 :=
    if 5 < price_savings then
      "$" ++ fmt2 cart.total_price ++ " ($" ++ fmt2 price_savings ++ " under budget)"
    else "$" ++ fmt2 cart.total_price
  let reasons :=
    [r1, r2] ++
      (if 4 < cart.protein_per_dollar then
        ["excellent value (" ++ fmt1 cart.protein_per_dollar ++ "g/$)"] else []) ++
      (match cart.eta_minutes with
       | some e => if e ≠ 0 ∧ e < 30 then ["fast delivery (" ++ toString e ++ " min)"] else []
       | none => []) ++
      (if cart.includes_estimates then ["*some nutrition estimated from menu names"] else [])
  (if rank = 1 then "Best overall: " else if rank = 2 then "Runner-up: "
   else "Alternative: ") ++ String.intercalate ", " reasons

/-- The `for cart in carts: cart.score = score_cart(...)` loop: each input
cart's `score` field is overwritten, every other field kept. -/
def assign_scores (carts : List CartCandidate) (min_protein : ℕ) (max_price : ℚ) :
    List CartCandidate :=
  carts.map (fun c => { c with score := score_cart c min_protein max_price })

/-- The ranked-result construction loop (`enumerate(top_carts, start=1)`). -/
def make_ranked : List CartCandidate → ℕ → ℕ → ℚ → List RankedCartResult
  | [], _, _, _ => []
  | c :: cs, i, min_protein, max_price =>
    { rank := i, restaurant := c.restaurant, restaurant_url := c.restaurant_url,
      cart_items := c.cart_items, total_price := c.total_price,
      total_protein_grams := c.total_protein_grams,
      includes_estimates := c.includes_estimates, eta_minutes := c.eta_minutes,
      score := c.score, reason := generate_cart_reason c i min_protein max_price } ::
      make_ranked cs (i + 1) min_protein max_price

/-- `rank_carts`.  The Python function mutates each input cart's `score` in
place and returns the ranked list; the pair returned here is (the input list
as the caller sees it after the call, the ranked results). -/
def rank_carts (carts : List CartCandidate) (min_protein : ℕ) (max_price : ℚ)
    (top_n : ℕ) : List CartCandidate × List RankedCartResult :=
  if carts.isEmpty then (carts, [])
  else
    let scored := assign_scores carts min_protein max_price
    let sorted_carts := sortStable (fun a b => lexLtQ (rank_key b) (rank_key a)) scored
    let unique_carts := dedup_by_restaurant sorted_carts []
    let top_carts := unique_carts.take top_n
    (scored, make_ranked top_carts 1 min_protein max_price)

/- ============================================================ -/
/- C2, C5, C10: ranking properties                              -/
/- ============================================================ -/

theorem dedup_by_restaurant_spec :
    ∀ (l : List CartCandidate) (seen : List String),
      (∀ c ∈ dedup_by_restaurant l seen, c.restaurant ∉ seen) ∧
      (dedup_by_restaurant l seen).Pairwise (fun a b => a.restaurant ≠ b.restaurant) := by
  intro l
  induction l with
  | nil => intro seen; simp [dedup_by_restaurant]
  | cons c cs ih =>
    intro seen
    by_cases hc : c.restaurant ∈ seen
    · rw [dedup_by_restaurant, if_pos hc]
      exact ih seen
    · rw [dedup_by_restaurant, if_neg hc]
      refine ⟨?_, ?_⟩
      · intro x hx
        rcases List.mem_cons.1 hx with rfl | hx'
        · exact hc
        · have := (ih (c.restaurant :: seen)).1 x hx'
          exact fun hmem => this (List.mem_cons_of_mem _ hmem)
      · refine List.Pairwise.cons ?_ (ih (c.restaurant :: seen)).2
        intro x hx
        have := (ih (c.restaurant :: seen)).1 x hx
        exact fun he => this (he ▸ List.mem_cons_self _ _)

theorem make_ranked_length :
    ∀ (l : List CartCandidate) (i p : ℕ) (m : ℚ),
      (make_ranked l i p m).length = l.length := by
  intro l
  induction l with
  | nil => intro i p m; rfl
  | cons c cs ih => intro i p m; simp [make_ranked, ih]

theorem make_ranked_restaurants :
    ∀ (l : List CartCandidate) (i p : ℕ) (m : ℚ),
      (make_ranked l i p m).map (fun res => res.restaurant) =
        l.map (fun c => c.restaurant) := by
  intro l
  induction l with
  | nil => intro i p m; rfl
  | cons c cs ih => intro i p m; simp [make_ranked, ih]

/-- C2: with `top_n = 3`, `rank_carts` returns at most 3 results and no two
results share a restaurant identifier (the dedup keeps one best-sorted cart
per restaurant before truncation). -/
theorem rank_carts_top3_unique_restaurants :
    ∀ (carts : List CartCandidate) (p : ℕ) (m : ℚ),
      (rank_carts carts p m 3).2.length ≤ 3 ∧
      ((rank_carts carts p m 3).2.map (fun res => res.restaurant)).Pairwise
        (fun a b => a ≠ b) := by
  intro carts p m
  unfold rank_carts
  split
  · simp
  · refine ⟨?_, ?_⟩
    · rw [make_ranked_length]
      exact List.length_take_le 3 _
    · rw [make_ranked_restaurants]
      refine (List.pairwise_map).2 ?_
      refine List.Pairwise.sublist (List.take_sublist 3 _) ?_
      exact (dedup_by_restaurant_spec _ []).2

/-- C5: ranking is deterministic — identical inputs (same candidate list,
minimum protein, maximum price, `top_n = 3`) give identical ordered outputs,
including each result's generated reason text; the embedding is a pure
function of its inputs. -/
theorem rank_carts_deterministic :
    ∀ (c₁ c₂ : List CartCandidate) (p₁ p₂ : ℕ) (m₁ m₂ : ℚ),
      c₁ = c₂ → p₁ = p₂ → m₁ = m₂ →
      rank_carts c₁ p₁ m₁ 3 = rank_carts c₂ p₂ m₂ 3 := by
  intro c₁ c₂ p₁ p₂ m₁ m₂ h1 h2 h3
  subst h1; subst h2; subst h3; rfl

/-- Witness for C5 at a concrete input. -/
theorem rank_carts_deterministic_witness :
    rank_carts [c1_cart] 100 30 3 = rank_carts [c1_cart] 100 30 3 :=
  rank_carts_deterministic [c1_cart] [c1_cart] 100 100 30 30 rfl rfl rfl

/-- C10: `rank_carts` writes `score_cart` into the `score` field of every
input cart and leaves every other field (restaurant, items, totals, ETA,
reason, estimate flag) unchanged — the post-call input list is exactly the
record-update map of the original. -/
theorem rank_carts_mutates_only_scores :
    ∀ (carts : List CartCandidate) (p : ℕ) (m : ℚ) (n : ℕ),
      (rank_carts carts p m n).1 =
        carts.map (fun c => { c with score := score_cart c p m }) := by
  intro carts p m n
  unfold rank_carts
  split
  next h =>
    cases carts with
    | nil => rfl
    | cons c cs => simp at h
  next => rfl

/- ============================================================ -/
/- Step interpreter (`mcp_executor.py`, `schemas/execution.py`) -/
/- ============================================================ -/

/-- A workflow step as the executor's control flow reads it: only the
`action` string tag decides recording and the fatal-`"goto"` break. -/
structure WStep where
  action : String
deriving DecidableEq, Repr

/-- `StepResult` (the fields the aggregation logic reads; screenshots, logs
and timestamps are not modelled). -/
structure MStepResult where
  step_number : ℕ
  action : String
  status : String
  duration_ms : ℕ
deriving DecidableEq, Repr

/-- `WorkflowResult` with its pydantic defaults
(`steps=[]`, `total_duration_ms=0`, `success=True`). -/
structure MWorkflowResult where
  steps : List MStepResult := []
  total_duration_ms : ℕ := 0
  success : Bool := true
deriving DecidableEq, Repr

/-- `WorkflowResult.add_step_result`: append, accumulate duration, and mark
the run unsuccessful on a `"failed"` status. -/
def add_step_result (w : MWorkflowResult) (r : MStepResult) : MWorkflowResult :=
  { w with
    steps := w.steps ++ [r]
    total_duration_ms := w.total_duration_ms + r.duration_ms
    success := if r.status = "failed" then false else w.success }

/-- The step loop of `MCPExecutor.execute_workflow`.  `exec i s` abstracts
`_execute_step` (a browser interaction) on step `s` at index `i`, with any
user-data placeholder interpolation folded into it.  After recording a step
result, a failed step whose action is `"goto"` breaks out of the loop. -/
def run_steps (exec : ℕ → WStep → MStepResult) :
    ℕ → List WStep → MWorkflowResult → MWorkflowResult
  | _, [], acc => acc
  | i, s :: rest, acc =>
    let r := exec i s
    let acc' := add_step_result acc r
    if r.status = "failed" ∧ s.action = "goto" then acc'
    else run_steps exec (i + 1) rest acc'

/-- `MCPExecutor.execute_workflow` (the final `result.complete()` call only
stamps timestamps and regenerates CSV artifacts, not modelled). -/
def execute_workflow (exec : ℕ → WStep → MStepResult) (steps : List WStep) :
    MWorkflowResult :=
  run_steps exec 0 steps {}

/-- No step of the list (numbered from `i`) is a failing `"goto"`. -/
def no_fatal_goto_from (exec : ℕ → WStep → MStepResult) : ℕ → List WStep → Bool
  | _, [] => true
  | i, s :: rest =>
    !((exec i s).status == "failed" && s.action == "goto") &&
      no_fatal_goto_from exec (i + 1) rest

theorem run_steps_records_all (exec : ℕ → WStep → MStepResult) :
    ∀ (steps : List WStep) (i : ℕ) (acc : MWorkflowResult),
      no_fatal_goto_from exec i steps = true →
      (run_steps exec i steps acc).steps.length = acc.steps.length + steps.length := by
  intro steps
  induction steps with
  | nil => intro i acc _; simp [run_steps]
  | cons s rest ih =>
    intro i acc h
    simp only [no_fatal_goto_from, Bool.and_eq_true, Bool.not_eq_true',
      Bool.and_eq_false_iff, beq_eq_false_iff_ne, ne_eq] at h
    rw [run_steps]
    have hcond : ¬((exec i s).status = "failed" ∧ s.action = "goto") := by
      intro hc
      rcases h.1 with h1 | h1
      · exact h1 hc.1
      · exact h1 hc.2
    rw [if_neg hcond, ih (i + 1) (add_step_result acc (exec i s)) h.2]
    simp [add_step_result]
    omega

/-- C3: a failed `"goto"` at step 0 of a 3-step workflow records exactly one
(failed) StepResult, makes the run unsuccessful, and leaves the remaining
steps unexecuted; and whenever no step is a failing `"goto"`, every step
(failures included) is recorded and execution continues to the end. -/
theorem workflow_fatal_goto_short_circuit :
    (∀ (exec : ℕ → WStep → MStepResult) (s0 s1 s2 : WStep),
      s0.action = "goto" → (exec 0 s0).status = "failed" →
      (execute_workflow exec [s0, s1, s2]).steps = [exec 0 s0] ∧
      (execute_workflow exec [s0, s1, s2]).success = false) ∧
    (∀ (exec : ℕ → WStep → MStepResult) (steps : List WStep),
      no_fatal_goto_from exec 0 steps = true →
      (execute_workflow exec steps).steps.length = steps.length) := by
  constructor
  · intro exec s0 s1 s2 ha hf
    unfold execute_workflow
    rw [run_steps, if_pos ⟨hf, ha⟩]
    constructor
    · simp [add_step_result]
    · simp [add_step_result, hf]
  · intro exec steps h
    have := run_steps_records_all exec steps 0 {} h
    simpa using this

/-- Concrete executed-step oracle for the C3 witness: every step fails. -/
def c3_exec : ℕ → WStep → MStepResult :=
  fun i s => { step_number := i, action := s.action, status := "failed", duration_ms := 7 }

/-- Concrete failing navigation step for the C3 witness. -/
def c3_goto_step : WStep := { action := "goto" }

/-- Witness for C3: a failing goto at step 0 of three steps records one
result and an unsuccessful run; two failing non-goto steps are both
recorded. -/
theorem workflow_fatal_goto_short_circuit_witness :
    ((execute_workflow c3_exec [c3_goto_step, c3_goto_step, c3_goto_step]).steps =
        [c3_exec 0 c3_goto_step] ∧
      (execute_workflow c3_exec [c3_goto_step, c3_goto_step, c3_goto_step]).success = false) ∧
    (execute_workflow c3_exec [{ action := "click" }, { action := "type" }]).steps.length = 2 :=
  ⟨workflow_fatal_goto_short_circuit.1 c3_exec c3_goto_step c3_goto_step c3_goto_step rfl rfl,
   workflow_fatal_goto_short_circuit.2 c3_exec [{ action := "click" }, { action := "type" }]
      (by decide)⟩

/-- C9: executing an empty step list is not an error: the result keeps the
`WorkflowResult` defaults — `success = True`, no step results, zero total
duration (`complete()` is called with no error and leaves `success` alone). -/
theorem execute_workflow_empty :
    ∀ (exec : ℕ → WStep → MStepResult),
      (execute_workflow exec []).success = true ∧
      (execute_workflow exec []).steps = [] ∧
      (execute_workflow exec []).total_duration_ms = 0 :=
  fun _ => ⟨rfl, rfl, rfl⟩

/- ============================================================ -/
/- Multi-field fill (`MCPExecutor._execute_fill_form`)          -/
/- ============================================================ -/

/-- The step fields `_execute_fill_form` reads: the field→value map in
insertion order, `auto_detect`, and the optional explicit selector. -/
structure FillFormStep where
  fields : List (String × String)
  auto_detect : Bool
  selector : Option String
deriving DecidableEq, Repr

/-- `FieldFillResult`. -/
structure MFieldFillResult where
  field_name : String
  selector_used : String
  success : Bool
  error : Option String
deriving DecidableEq, Repr

/-- `MCPToolResult` as `_execute_fill_form` builds it (the fields the
executor reads). -/
structure MToolResult where
  success : Bool
  content : Option String
  error : Option String
  fields_filled : List MFieldFillResult
deriving DecidableEq, Repr

/-- The skip test `not value or value.startswith("{{user.")`: an empty
value, or a value that *begins with* an unresolved placeholder
(`startswith` is the character-prefix test). -/
def skip_value (v : String) : Bool :=
  v == "" || charsHavePrefix "\x7b\x7buser.".data v.data

/-- Selector candidates for a field: the auto-detect table, an explicit
step selector, or the table as fallback. -/
def selectors_for (get_sel : String → List String) (step : FillFormStep)
    (name : String) : List String :=
  if step.auto_detect then get_sel name
  else
    match step.selector with
    | some s => [s]
    | none => get_sel name

/-- One iteration of the field loop: the appended `FieldFillResult` and the
optional entry appended to `errors` (skipped fields add no error entry).
`try_sel` abstracts `greenhouse_helpers.try_selectors` (browser
interaction): (success, selector_used, error message); `get_label` abstracts
`get_field_label`. -/
def fill_one_field (try_sel : List String → String → Bool × String × String)
    (get_sel : String → List String) (get_label : String → String)
    (step : FillFormStep) (nv : String × String) :
    MFieldFillResult × Option String :=
  if skip_value nv.2 then
    ({ field_name := nv.1, selector_used := "none", success := false,
       error := some "Empty value or uninterpolated placeholder" }, none)
  else
    match try_sel (selectors_for get_sel step nv.1) nv.2 with
    | (true, sel_used, _) =>
      ({ field_name := nv.1, selector_used := sel_used, success := true, error := none },
       none)
    | (false, _, err) =>
      ({ field_name := nv.1, selector_used := "none", success := false, error := some err },
       some (get_label nv.1 ++ ": " ++ err))

/-- `_execute_fill_form`.  An empty field map is rejected up front.  The
overall MCP-result `success` is `success_count > 0`; the local
`status = "success"/"partial"/"failed"` computed right before the return is
dead — it is never placed in the returned result (see
`fill_form_dead_status`). -/
def execute_fill_form (try_sel : List String → String → Bool × String × String)
    (get_sel : String → List String) (get_label : String → String)
    (step : FillFormStep) : MToolResult :=
  if step.fields.isEmpty then
    { success := false, content := none,
      error := some "No fields provided for fill_form action", fields_filled := [] }
  else
    let outcomes := step.fields.map (fill_one_field try_sel get_sel get_label step)
    let fields_filled := outcomes.map Prod.fst
    let errors := outcomes.filterMap Prod.snd
    let success_count := fields_filled.countP (fun fr => fr.success)
    let overall_success := decide (0 < success_count)
    let content :=
      "Filled " ++ toString success_count ++ "/" ++ toString step.fields.length ++
        " fields" ++
        (if errors.isEmpty then ""
         else ". Errors: " ++ String.intercalate "; " (errors.take 3))
    { success := overall_success, content := some content,
      error :=
        if !errors.isEmpty && !overall_success then
          some (String.intercalate "; " errors)
        else none,
      fields_filled := fields_filled }

/-- The dead `status` local of `_execute_fill_form` (line 424): computed as
success/partial/failed, then discarded — nothing in the returned
`MCPToolResult` or the recorded `StepResult` carries it, and the
`ExecutionStatus` enum of `schemas/execution.py` has no `"partial"` member. -/
def fill_form_dead_status (try_sel : List String → String → Bool × String × String)
    (get_sel : String → List String) (get_label : String → String)
    (step : FillFormStep) : String :=
  let success_count :=
    ((step.fields.map (fill_one_field try_sel get_sel get_label step)).map
      Prod.fst).countP (fun fr => fr.success)
  if success_count = step.fields.length then "success"
  else if 0 < success_count then "partial" else "failed"

/-- `_execute_step` line 150: the recorded step status is
`"success" if action_result.success else "failed"`. -/
def recorded_step_status (r : MToolResult) : String :=
  if r.success then "success" else "failed"

/-- Fill oracle for the C4 scenario: every attempted selector fill works. -/
def c4_try_sel : List String → String → Bool × String × String :=
  fun sels _ => (true, sels.headD "input", "")

/-- Selector table for the C4 scenario. -/
def c4_get_sel : String → List String := fun name => ["#" ++ name]

/-- Label table for the C4 scenario. -/
def c4_get_label : String → String := fun name => name

/-- The C4 scenario step: three fields, one still holding an unresolved
placeholder. -/
def c4_step : FillFormStep :=
  { fields := [("first_name", "Ada"), ("last_name", "Lovelace"),
      ("phone", "\x7b\x7buser.phone\x7d\x7d")],
    auto_detect := true, selector := none }

/-- C4 counterexample: in the claim's own scenario (3 fields, one holding an
unresolved placeholder, the other two fillable) the *recorded* step status
is `"success"`, not `"partial"` — the success/partial/failed label is a dead
local and the MCP result only reports `success_count > 0`; the skipped
sub-result's reason is `"Empty value or uninterpolated placeholder"`, not
`"empty or unresolved placeholder"`; and a value that merely *contains* an
unresolved placeholder (not at its start) is not skipped at all. -/
theorem fill_form_status_counterexample :
    recorded_step_status (execute_fill_form c4_try_sel c4_get_sel c4_get_label c4_step) =
      "success" ∧
    "success" ≠ "partial" ∧
    fill_form_dead_status c4_try_sel c4_get_sel c4_get_label c4_step = "partial" ∧
    (execute_fill_form c4_try_sel c4_get_sel c4_get_label c4_step).fields_filled.countP
      (fun fr => fr.success) = 2 ∧
    (execute_fill_form c4_try_sel c4_get_sel c4_get_label c4_step).fields_filled.get? 2 =
      some { field_name := "phone", selector_used := "none", success := false,
             error := some "Empty value or uninterpolated placeholder" } ∧
    some "Empty value or uninterpolated placeholder" ≠
      some "empty or unresolved placeholder" ∧
    (execute_fill_form c4_try_sel c4_get_sel c4_get_label
        { fields := [("note", "call \x7b\x7buser.phone\x7d\x7d later")], auto_detect := true,
          selector := none }).fields_filled =
      [{ field_name := "note", selector_used := "#note", success := true, error := none }] := by
  refine ⟨rfl, by decide, rfl, rfl, rfl, by decide, rfl⟩

/-- C4 amended: a field value that is empty or *begins with* `"{{user."` is
skipped and recorded as a failed sub-result with error
`"Empty value or uninterpolated placeholder"`; one sub-result is recorded
per field; and for a nonempty field map the recorded step status is
`"success"` exactly when at least one field was filled and `"failed"`
otherwise — never `"partial"`. -/
theorem fill_form_amended :
    ∀ (try_sel : List String → String → Bool × String × String)
      (get_sel : String → List String) (get_label : String → String)
      (step : FillFormStep),
      (execute_fill_form try_sel get_sel get_label step).fields_filled.length =
        step.fields.length ∧
      (∀ i (h : i < step.fields.length),
        skip_value (step.fields.get ⟨i, h⟩).2 = true →
        (execute_fill_form try_sel get_sel get_label step).fields_filled.get? i =
          some { field_name := (step.fields.get ⟨i, h⟩).1, selector_used := "none",
                 success := false,
                 error := some "Empty value or uninterpolated placeholder" }) ∧
      (step.fields ≠ [] →
        (recorded_step_status (execute_fill_form try_sel get_sel get_label step) =
            "success" ↔
          0 < (execute_fill_form try_sel get_sel get_label step).fields_filled.countP
            (fun fr => fr.success))) ∧
      (∀ r : MToolResult, recorded_step_status r ≠ "partial") := by
  intro try_sel get_sel get_label step
  by_cases hemp : step.fields.isEmpty
  · have hnil : step.fields = [] := List.isEmpty_iff.1 hemp
    refine ⟨?_, ?_, ?_, ?_⟩
    · simp [execute_fill_form, hemp, hnil]
    · intro i h
      rw [hnil] at h
      exact absurd h (by simp)
    · intro hne
      exact absurd hnil hne
    · intro r
      unfold recorded_step_status
      split <;> simp
  · refine ⟨?_, ?_, ?_, ?_⟩
    · simp [execute_fill_form, hemp]
    · intro i h hskip
      have hget : step.fields.get? i = some (step.fields.get ⟨i, h⟩) :=
        List.get?_eq_get h
      have hskip' : skip_value (step.fields[i]).2 = true := by
        simpa [List.get_eq_getElem] using hskip
      simp only [execute_fill_form, hemp, Bool.false_eq_true, if_false,
        List.map_map, List.get?_map, hget, Option.map_some]
      simp [fill_one_field, hskip', List.get_eq_getElem]
    · intro _
      simp only [execute_fill_form, hemp, Bool.false_eq_true, if_false,
        recorded_step_status]
      constructor
      · intro hs
        by_contra hc
        simp only [decide_eq_true_eq] at hs
        split at hs
        next hpos => exact hc (by simpa using hpos)
        next => exact absurd hs (by decide)
      · intro hpos
        rw [if_pos (by simpa using hpos)]
    · intro r
      unfold recorded_step_status
      split <;> simp

/-- Witness for the amended C4 at the 3-field scenario. -/
theorem fill_form_amended_witness :
    (execute_fill_form c4_try_sel c4_get_sel c4_get_label c4_step).fields_filled.get? 2 =
      some { field_name := "phone", selector_used := "none", success := false,
             error := some "Empty value or uninterpolated placeholder" } ∧
    (recorded_step_status (execute_fill_form c4_try_sel c4_get_sel c4_get_label c4_step) =
        "success" ↔
      0 < (execute_fill_form c4_try_sel c4_get_sel c4_get_label
            c4_step).fields_filled.countP (fun fr => fr.success)) :=
  ⟨(fill_form_amended c4_try_sel c4_get_sel c4_get_label c4_step).2.1 2 (by decide)
      (by decide),
   (fill_form_amended c4_try_sel c4_get_sel c4_get_label c4_step).2.2.1 (by decide)⟩


/- ============================================================ -/
/- Navigation retry (`PlaywrightRuntime.navigate`)              -/
/- ============================================================ -/

/-- What the environment does on one navigation attempt: whether
`_create_fresh_context()` succeeds (relevant from the second attempt on),
what `page.goto` does (raise, or return a response with an optional HTTP
status), whether the readiness probe finds the page alive, and whether a
cookie banner was dismissed. -/
structure NavAttempt where
  ctx_ok : Bool
  goto_result : Except String (Option ℕ)
  page_ready : Bool
  cookie_dismissed : Bool

/-- The navigation environment: per-attempt outcomes plus the jitter drawn
by `random.uniform(0.5, 1.5)` for each retry's backoff sleep. -/
structure NavEnv where
  oracle : ℕ → NavAttempt
  jitter : ℕ → ℚ

/-- Observable side effects of the retry loop: the backoff sleep before a
retry (with its duration `2 ** attempt + jitter`), the
`_create_fresh_context()` call (with its outcome), and each `page.goto`
issued. -/
inductive NavEvent where
  | backoff (attempt : ℕ) (amount : ℚ)
  | freshContext (attempt : ℕ) (ok : Bool)
  | gotoAttempt (attempt : ℕ)
deriving DecidableEq, Repr

/-- The result dict of `navigate` (success and failure shapes merged into
one record; the failure dict carries no `status`/`cookie_dismissed` keys,
modelled as `none`). -/
structure MNavResult where
  success : Bool
  content : Option String
  status : Option ℕ
  error : Option String
  cookie_dismissed : Option Bool
  attempts : ℕ
deriving DecidableEq, Repr

/-- The success `content` string (with the cookie-dismissal suffix). -/
def nav_content (url : String) (cookie : Bool) : String :=
  "Navigated to " ++ url ++ (if cookie then " (cookie banner dismissed)" else "")

/-- The all-retries-exhausted return value: `attempts = max_retries = 3`
and the last error interpolated (`None` when nothing was recorded). -/
def nav_failure (last_error : Option String) : MNavResult :=
  { success := false, content := none, status := none,
    error := some ("Navigation failed after 3 attempts: " ++ last_error.getD "None"),
    cookie_dismissed := none, attempts := 3 }

/-- The side effects attempt `i` produces when the loop enters it: for
`i > 0` a backoff sleep of `2 ** i + jitter i` followed by the
fresh-context recreation (never for the first attempt); then a `page.goto`
unless the recreation failed (which `continue`s straight to the next
attempt). -/
def attempt_events (env : NavEnv) (i : ℕ) : List NavEvent :=
  (if i = 0 then []
   else [NavEvent.backoff i (2 ^ i + env.jitter i),
     NavEvent.freshContext i (env.oracle i).ctx_ok]) ++
  (if i ≠ 0 ∧ (env.oracle i).ctx_ok = false then [] else [NavEvent.gotoAttempt i])

/-- The retry loop of `navigate` over the remaining attempt indices
(`for attempt in range(3)` walks `[0, 1, 2]`).  A failing fresh-context
recreation consumes the attempt (`continue`); a `goto` exception records
the error and retries; a not-ready readiness probe records a degraded-page
error and retries; a ready page returns success with
`attempts = attempt + 1`. -/
def nav_loop (env : NavEnv) (url : String) :
    List ℕ → Option String → MNavResult × List NavEvent
  | [], last_error => (nav_failure last_error, [])
  | i :: rest, last_error =>
    let a := env.oracle i
    if i ≠ 0 ∧ a.ctx_ok = false then
      let next := nav_loop env url rest last_error
      (next.1, attempt_events env i ++ next.2)
    else
      match a.goto_result with
      | .error msg =>
        let next := nav_loop env url rest (some msg)
        (next.1, attempt_events env i ++ next.2)
      | .ok st =>
        if a.page_ready then
          ({ success := true, content := some (nav_content url a.cookie_dismissed),
             status := st, error := none, cookie_dismissed := some a.cookie_dismissed,
             attempts := i + 1 }, attempt_events env i)
        else
          let next := nav_loop env url rest
            (some "Page loaded but appears degraded or blocked")
          (next.1, attempt_events env i ++ next.2)

/-- `PlaywrightRuntime.navigate` with `max_retries = 3`. -/
def navigate (env : NavEnv) (url : String) : MNavResult × List NavEvent :=
  nav_loop env url [0, 1, 2] none

/-- Attempt `i` does not return: the fresh-context recreation raises
(`continue`, only possible for `i > 0`), `goto` raises, or the readiness
probe reports the page degraded. -/
def attempt_fails (env : NavEnv) (i : ℕ) : Bool :=
  (decide (i ≠ 0) && !(env.oracle i).ctx_ok) ||
    (match (env.oracle i).goto_result with
     | .error _ => true
     | .ok _ => !(env.oracle i).page_ready)

theorem nav_loop_attempts (env : NavEnv) (url : String) :
    ∀ (l : List ℕ) (le : Option String),
      (∀ i ∈ l, i < 3) →
      1 ≤ (nav_loop env url l le).1.attempts ∧ (nav_loop env url l le).1.attempts ≤ 3 := by
  intro l
  induction l with
  | nil => intro le _; simp [nav_loop, nav_failure]
  | cons i rest ih =>
    intro le hl
    have hrest : ∀ j ∈ rest, j < 3 := fun j hj => hl j (List.mem_cons_of_mem _ hj)
    by_cases h1 : i ≠ 0 ∧ (env.oracle i).ctx_ok = false
    · simpa [nav_loop, h1] using ih le hrest
    · rcases hg : (env.oracle i).goto_result with msg | st
      · simpa [nav_loop, h1, hg] using ih (some msg) hrest
      · by_cases hr : (env.oracle i).page_ready
        · have hi : i < 3 := hl i (List.mem_cons_self _ _)
          simp [nav_loop, h1, hg, hr]
          omega
        · simpa [nav_loop, h1, hg, hr] using
            ih (some "Page loaded but appears degraded or blocked") hrest

theorem nav_loop_all_fail (env : NavEnv) (url : String) :
    ∀ (l : List ℕ) (le : Option String),
      (∀ i ∈ l, attempt_fails env i = true) →
      (nav_loop env url l le).1.success = false ∧
      (nav_loop env url l le).1.attempts = 3 := by
  intro l
  induction l with
  | nil => intro le _; simp [nav_loop, nav_failure]
  | cons i rest ih =>
    intro le hl
    have hrest : ∀ j ∈ rest, attempt_fails env j = true :=
      fun j hj => hl j (List.mem_cons_of_mem _ hj)
    have hfail := hl i (List.mem_cons_self _ _)
    by_cases h1 : i ≠ 0 ∧ (env.oracle i).ctx_ok = false
    · simpa [nav_loop, h1] using ih le hrest
    · rcases hg : (env.oracle i).goto_result with msg | st
      · simpa [nav_loop, h1, hg] using ih (some msg) hrest
      · have hr : (env.oracle i).page_ready = false := by
          unfold attempt_fails at hfail
          rw [hg] at hfail
          rcases Bool.or_eq_true_iff.1 hfail with hc | hp
          · exfalso
            rcases Bool.and_eq_true_iff.1 hc with ⟨hd, hctx⟩
            exact h1 ⟨by simpa using hd, by simpa using hctx⟩
          · simpa using hp
        simpa [nav_loop, h1, hg, hr] using
          ih (some "Page loaded but appears degraded or blocked") hrest

/-- The event trace of the loop is the concatenation of the per-attempt
blocks of the attempts it entered (some sublist of the attempt schedule). -/
theorem nav_loop_events_shape (env : NavEnv) (url : String) :
    ∀ (l : List ℕ) (le : Option String),
      ∃ l', l' ⊆ l ∧ (nav_loop env url l le).2 = l'.bind (attempt_events env) := by
  intro l
  induction l with
  | nil => intro le; exact ⟨[], by simp [nav_loop]⟩
  | cons i rest ih =>
    intro le
    by_cases h1 : i ≠ 0 ∧ (env.oracle i).ctx_ok = false
    · rcases ih le with ⟨l', hsub, hev⟩
      refine ⟨i :: l', ?_, ?_⟩
      · exact List.cons_subset_cons i hsub |>.trans (by simp)
      · simp [nav_loop, h1, hev]
    · rcases hg : (env.oracle i).goto_result with msg | st
      · rcases ih (some msg) with ⟨l', hsub, hev⟩
        refine ⟨i :: l', ?_, ?_⟩
        · exact List.cons_subset_cons i hsub |>.trans (by simp)
        · simp [nav_loop, h1, hg, hev]
      · by_cases hr : (env.oracle i).page_ready
        · refine ⟨[i], by simp, ?_⟩
          simp [nav_loop, h1, hg, hr]
        · rcases ih (some "Page loaded but appears degraded or blocked") with
            ⟨l', hsub, hev⟩
          refine ⟨i :: l', ?_, ?_⟩
          · exact List.cons_subset_cons i hsub |>.trans (by simp)
          · simp [nav_loop, h1, hg, hr, hev]

theorem backoff_mem_attempt_events {env : NavEnv} {i j : ℕ} {q : ℚ}
    (h : NavEvent.backoff j q ∈ attempt_events env i) :
    1 ≤ j ∧ q = 2 ^ j + env.jitter j := by
  unfold attempt_events at h
  by_cases h0 : i = 0
  · subst h0
    simp at h
  · rcases List.mem_append.1 h with h | h
    · simp only [if_neg h0, List.mem_cons, List.mem_singleton] at h
      rcases h with h | h
      · injection h with h1 h2
        subst h1
        subst h2
        exact ⟨Nat.one_le_iff_ne_zero.2 h0, rfl⟩
      · exact absurd h (by simp)
    · split at h <;> simp at h

theorem goto_mem_attempt_events {env : NavEnv} {i j : ℕ}
    (h : NavEvent.gotoAttempt j ∈ attempt_events env i) :
    j = i ∧ ¬(i ≠ 0 ∧ (env.oracle i).ctx_ok = false) := by
  unfold attempt_events at h
  rcases List.mem_append.1 h with h | h
  · split at h <;> simp at h
  · split at h
    next hcond => simp at h
    next hcond =>
      simp only [List.mem_singleton] at h
      have : j = i := by injection h
      exact ⟨this, hcond⟩

theorem fresh_mem_attempt_events {env : NavEnv} {i j : ℕ} {b : Bool}
    (h : NavEvent.freshContext j b ∈ attempt_events env i) :
    j = i ∧ j ≠ 0 ∧ b = (env.oracle i).ctx_ok := by
  unfold attempt_events at h
  rcases List.mem_append.1 h with h | h
  · by_cases h0 : i = 0
    · simp [h0] at h
    · simp only [if_neg h0] at h
      rcases List.mem_cons.1 h with h | h
      · exact absurd h (by simp)
      · rcases List.mem_cons.1 h with h | h
        · injection h with h1 h2
          subst h1
          subst h2
          exact ⟨rfl, h0, rfl⟩
        · exact absurd h (by simp)
  · split at h <;> simp at h

/-- C8: `navigate` returns a structured result carrying success, status and
attempts; it makes between 1 and 3 attempts; if every attempt fails it
returns `success = false` with `attempts = 3`; every backoff sleep recorded
belongs to a retry (attempt ≥ 1) and lasts exactly `2 ** attempt + jitter`;
every `goto` issued from the second attempt onward is preceded in the same
run by a successful fresh-context recreation for that attempt (the old
session is never reused) plus its backoff sleep; and no fresh context is
ever created for the first attempt. -/
theorem navigate_retry_protocol :
    ∀ (env : NavEnv) (url : String),
      (1 ≤ (navigate env url).1.attempts ∧ (navigate env url).1.attempts ≤ 3) ∧
      ((∀ i, i < 3 → attempt_fails env i = true) →
        (navigate env url).1.success = false ∧ (navigate env url).1.attempts = 3) ∧
      (∀ i q, NavEvent.backoff i q ∈ (navigate env url).2 →
        1 ≤ i ∧ q = 2 ^ i + env.jitter i) ∧
      (∀ i, NavEvent.gotoAttempt i ∈ (navigate env url).2 → 1 ≤ i →
        NavEvent.freshContext i true ∈ (navigate env url).2 ∧
        NavEvent.backoff i (2 ^ i + env.jitter i) ∈ (navigate env url).2) ∧
      (∀ b, NavEvent.freshContext 0 b ∉ (navigate env url).2) := by
  intro env url
  obtain ⟨l', _, hev⟩ := nav_loop_events_shape env url [0, 1, 2] none
  refine ⟨?_, ?_, ?_, ?_, ?_⟩
  · exact nav_loop_attempts env url [0, 1, 2] none (by intro i hi; simp at hi; omega)
  · intro hall
    refine nav_loop_all_fail env url [0, 1, 2] none ?_
    intro i hi
    apply hall
    simp at hi
    omega
  · intro i q hmem
    rw [show (navigate env url).2 = l'.bind (attempt_events env) from hev] at hmem
    rcases List.mem_bind.1 hmem with ⟨a, _, ha⟩
    exact backoff_mem_attempt_events ha
  · intro i hmem hi1
    rw [show (navigate env url).2 = l'.bind (attempt_events env) from hev] at hmem ⊢
    rcases List.mem_bind.1 hmem with ⟨a, hal, ha⟩
    obtain ⟨rfl, hnc⟩ := goto_mem_attempt_events ha
    have hne : i ≠ 0 := by omega
    have hctx : (env.oracle i).ctx_ok = true := by
      by_contra hc
      exact hnc ⟨hne, by simpa using hc⟩
    constructor
    · refine List.mem_bind.2 ⟨i, hal, ?_⟩
      unfold attempt_events
      refine List.mem_append.2 (Or.inl ?_)
      rw [if_neg hne, ← hctx]
      simp
    · refine List.mem_bind.2 ⟨i, hal, ?_⟩
      unfold attempt_events
      refine List.mem_append.2 (Or.inl ?_)
      rw [if_neg hne]
      simp
  · intro b hmem
    rw [show (navigate env url).2 = l'.bind (attempt_events env) from hev] at hmem
    rcases List.mem_bind.1 hmem with ⟨a, _, ha⟩
    exact absurd (fresh_mem_attempt_events ha).2.1 (by simp)

/-- An attempt outcome where everything goes wrong (context recreation
raises, `goto` raises, probe finds nothing). -/
def c8_fail_attempt : NavAttempt :=
  { ctx_ok := false, goto_result := .error "net::ERR_CONNECTION_RESET",
    page_ready := false, cookie_dismissed := false }

/-- Environment where all three attempts fail. -/
def c8_env_fail : NavEnv :=
  { oracle := fun _ => c8_fail_attempt, jitter := fun _ => 1 }

/-- Environment where attempt 0 times out and attempt 1 succeeds after a
fresh context. -/
def c8_env_retry : NavEnv :=
  { oracle := fun i =>
      if i = 0 then
        { ctx_ok := true, goto_result := .error "net::ERR_TIMED_OUT",
          page_ready := false, cookie_dismissed := false }
      else
        { ctx_ok := true, goto_result := .ok (some 200), page_ready := true,
          cookie_dismissed := true },
    jitter := fun _ => 1 }

/-- Witness for C8: with every attempt failing, `navigate` reports
`success = false` after exactly 3 attempts; and in a run whose retry
succeeds, the second attempt's `goto` is preceded by a successful
fresh-context recreation and its backoff sleep. -/
theorem navigate_retry_protocol_witness :
    ((navigate c8_env_fail "https://www.ubereats.com").1.success = false ∧
      (navigate c8_env_fail "https://www.ubereats.com").1.attempts = 3) ∧
    (NavEvent.freshContext 1 true ∈ (navigate c8_env_retry "https://www.ubereats.com").2 ∧
      NavEvent.backoff 1 (2 ^ 1 + c8_env_retry.jitter 1) ∈
        (navigate c8_env_retry "https://www.ubereats.com").2) :=
  ⟨(navigate_retry_protocol c8_env_fail "https://www.ubereats.com").2.1
      (by intro i hi; interval_cases i <;> decide),
   (navigate_retry_protocol c8_env_retry "https://www.ubereats.com").2.2.2.1 1
      (by decide) (by decide)⟩
